import Mathlib

/-!
Verification of the OTL AI email agent (src/app.py): classification router,
dedup ledger, approval queue, and activity log, shallowly embedded in Lean.
External collaborators (the OpenAI classifier/generator and the IMAP/SMTP
transport) are modelled as oracle function parameters; everything else is
translated directly from the Python source.
-/

namespace OTL

/-- Python `needle in haystack` on character lists (substring containment). -/
def isSubstrList (needle : List Char) : List Char → Bool
  | [] => needle.isEmpty
  | c :: t => needle.isPrefixOf (c :: t) || isSubstrList needle t

/-- Python `needle in haystack` on strings. -/
def substrOf (needle haystack : String) : Bool :=
  isSubstrList needle.data haystack.data

/-- Python `s.split('@')[-1]`: the part after the last `'@'`
(the whole string when there is no `'@'`). -/
def afterLastAt (s : String) : String :=
  String.mk ((s.data.reverse.takeWhile (fun c => c != '@')).reverse)

/-- Python `s.lower()` (ASCII case folding, matching Lean's `Char.toLower`). -/
def pyLower (s : String) : String :=
  String.mk (s.data.map Char.toLower)

/-- Python `s[:n]` on text. -/
def pyTake (n : Nat) (s : String) : String :=
  String.mk (s.data.take n)

/-- `sender_email.split('@')[-1].lower()` from `classify_email` (src/app.py:81). -/
def senderDomain (sender_email : String) : String :=
  pyLower (afterLastAt sender_email)

/-- The parts of `OTL_CONFIG` that `classify_email` reads (src/app.py:29-56). -/
structure OTLConfigT where
  email_accounts : List String
  vip_domains : List String
deriving DecidableEq

/-- The concrete `OTL_CONFIG` dictionary (src/app.py:29-56). -/
def OTL_CONFIG : OTLConfigT :=
  { email_accounts :=
      [ "info@outreachandtransformlives.org"
      , "mdigo@outreachandtransformlives.org"
      , "jasmine@outreachandtransformlives.org"
      , "admin@outreachandtransformlives.org"
      , "Carole@outreachandtransformlives.org"
      , "info@emdigo.org"
      , "mdigo@emdigo.org" ]
  , vip_domains :=
      [ "gatesfoundation.org"
      , "fordfoundation.org"
      , "seattle.gov"
      , "king-county.gov"
      , "wa.gov"
      , "hud.gov"
      , "state.gov" ] }

/-- Successful output of the external classifier call
(the JSON object `json.loads` yields at src/app.py:124). -/
structure ClassifierOutput where
  classification : String
  confidence : Int
  sentiment : Option String
deriving DecidableEq

/-- The dictionary `classify_email` returns: the branches at src/app.py:83-88,
92-97, 126-133 and 137-142 populate different subsets of these keys, the
missing ones modelled as `none`. -/
structure ClassificationResult where
  classification : String
  confidence : Int
  action : String
  sentiment : Option String := none
  reason : Option String := none
  error : Option String := none
deriving DecidableEq

/-- `any(vip in domain for vip in OTL_CONFIG["vip_domains"])` (src/app.py:82). -/
def vipMatch (cfg : OTLConfigT) (sender_email : String) : Bool :=
  cfg.vip_domains.any (fun vip => substrOf vip (senderDomain sender_email))

/-- `sender_email.lower() in [email.lower() for email in OTL_CONFIG["email_accounts"]]`
(src/app.py:91). -/
def staffMatch (cfg : OTLConfigT) (sender_email : String) : Bool :=
  (cfg.email_accounts.map pyLower).contains (pyLower sender_email)

/-- `auto_respond_categories` (src/app.py:127). -/
def auto_respond_categories : List String :=
  ["volunteer_interest", "program_inquiry", "general_support"]

/-- `classify_email` (src/app.py:77-142). The external OpenAI call is the
oracle `classifier`, invoked on the sender, subject and the 500-character
content prefix embedded in the prompt; `Except.error` covers every failure
the `except` clause catches (transport error, malformed JSON, missing key).
The function is total: no failure escapes it. -/
def classify_email (cfg : OTLConfigT)
    (classifier : String → String → String → Except String ClassifierOutput)
    (sender_email subject content : String) : ClassificationResult :=
  let domain := senderDomain sender_email
  if vipMatch cfg sender_email then
    { classification := "vip_contact"
    , confidence := 100
    , action := "human_review_required"
    , reason := some ("VIP domain detected: " ++ domain) }
  else if staffMatch cfg sender_email then
    { classification := "staff_communication"
    , confidence := 95
    , action := "human_review_required"
    , reason := some "Internal staff communication" }
  else
    match classifier sender_email subject (pyTake 500 content) with
    | .ok result =>
      if auto_respond_categories.contains result.classification && result.confidence > 70 then
        { classification := result.classification
        , confidence := result.confidence
        , action := "generate_for_approval"
        , sentiment := result.sentiment }
      else
        { classification := result.classification
        , confidence := result.confidence
        , action := "human_review"
        , sentiment := result.sentiment }
    | .error e =>
      { classification := "error"
      , confidence := 0
      , action := "human_review"
      , error := some e }

/-! ## Approval queue (`pending_responses`, src/app.py:75, 338-351, 792-858) -/

/-- One entry of `pending_responses`: the dict built at src/app.py:338-349. -/
structure PendingResponse where
  id : Nat
  sender : String
  subject : String
  original_body : String
  generated_response : String
  classification : String
  confidence : Int
  timestamp : String
  status : String
  account : String
deriving DecidableEq

/-- The per-draft inputs of the dict at src/app.py:338-349, i.e. every field
except the two the enqueue computes itself (`id` and `status`). -/
structure DraftInfo where
  sender : String
  subject : String
  original_body : String
  generated_response : String
  classification : String
  confidence : Int
  timestamp : String
  account : String
deriving DecidableEq

/-- The enqueue in `process_emails` (src/app.py:338-351): build the pending
dict with `id = len(pending_responses) + 1` and `status = 'pending_approval'`
and append it. -/
def enqueue_pending (queue : List PendingResponse) (d : DraftInfo) : List PendingResponse :=
  queue ++
    [{ id := queue.length + 1
     , sender := d.sender
     , subject := d.subject
     , original_body := d.original_body
     , generated_response := d.generated_response
     , classification := d.classification
     , confidence := d.confidence
     , timestamp := d.timestamp
     , status := "pending_approval"
     , account := d.account }]

/-- The four ways `approve_response` can respond (src/app.py:792-828). -/
inductive ApproveOutcome where
  | notFound
  | sendFailed
  | configNotFound
  | approvedSent
deriving DecidableEq

/-- Result of `approve_response`: the HTTP outcome, the value of
`pending_responses` afterwards, and the entry handed to `send_response`
(if any). -/
structure ApproveResult where
  outcome : ApproveOutcome
  queue : List PendingResponse
  sent : Option PendingResponse
deriving DecidableEq

/-- `approve_response` (src/app.py:792-828): find the first entry whose id
matches (the loop with `break` at 801-805); 404 when none; look up the
account's config (`EMAIL_CONFIG.get`, modelled by membership in
`configKeys`); call `send_response` (the oracle `sendOk`); on success filter
out every entry with that id (line 823); on send failure or missing config
return an error leaving the queue untouched. -/
def approve_response (configKeys : List String) (sendOk : PendingResponse → Bool)
    (queue : List PendingResponse) (rid : Nat) : ApproveResult :=
  match queue.find? (fun r => r.id == rid) with
  | none => { outcome := .notFound, queue := queue, sent := none }
  | some pr =>
    if configKeys.contains pr.account then
      if sendOk pr then
        { outcome := .approvedSent
        , queue := queue.filter (fun r => !(r.id == rid))
        , sent := some pr }
      else
        { outcome := .sendFailed, queue := queue, sent := none }
    else
      { outcome := .configNotFound, queue := queue, sent := none }

/-- `reject_response` (src/app.py:830-841): unconditionally filter out every
entry with the given id and report success. -/
def reject_response (queue : List PendingResponse) (rid : Nat) : List PendingResponse :=
  queue.filter (fun r => !(r.id == rid))

/-- `edit_response` (src/app.py:843-858): walk the list, overwrite
`generated_response` of the first entry whose id matches and return success
(`true`); 404 (`false`) when no entry matches. -/
def edit_response (queue : List PendingResponse) (rid : Nat) (newText : String) :
    Bool × List PendingResponse :=
  match queue with
  | [] => (false, [])
  | r :: rest =>
    if r.id == rid then
      (true, { r with generated_response := newText } :: rest)
    else
      let res := edit_response rest rid newText
      (res.1, r :: res.2)

/-! ## Dedup ledger and mail fetching (`processed_emails`, src/app.py:73, 249-300) -/

/-- What `mail.fetch` yields for one message id (src/app.py:269-277). -/
structure FetchedMsg where
  sender : String
  subject : String
  body : String
  date : String
deriving DecidableEq

/-- The `email_data` dict built at src/app.py:279-286. -/
structure EmailData where
  id : String
  sender : String
  subject : String
  body : String
  date : String
  account : String
deriving DecidableEq

/-- The per-id loop of `fetch_new_emails` (src/app.py:265-291): skip ids
already in `processed_emails`; otherwise fetch (oracle `fetchMsg`, `none`
when the fetch status is not OK, in which case the id is neither emitted nor
marked); on success emit the `email_data` record and add the id to the
ledger. Returns the emitted messages and the updated ledger. Note the ledger
is keyed by the message id alone — the account is only copied into the
emitted record. -/
def fetch_loop (account : String) (fetchMsg : String → Option FetchedMsg) :
    List String → List String → List EmailData × List String
  | [], processed => ([], processed)
  | i :: rest, processed =>
    if processed.contains i then
      fetch_loop account fetchMsg rest processed
    else
      match fetchMsg i with
      | some m =>
        let res := fetch_loop account fetchMsg rest (processed ++ [i])
        ({ id := i, sender := m.sender, subject := m.subject
         , body := m.body, date := m.date, account := account } :: res.1, res.2)
      | none => fetch_loop account fetchMsg rest processed

/-- One call of `fetch_new_emails` for one mailbox (src/app.py:249-300):
the account, whether the IMAP connect succeeded, the ids the UNSEEN search
listed, and the fetch oracle. -/
structure MailboxCycle where
  account : String
  connected : Bool
  unseen : List String
  fetchMsg : String → Option FetchedMsg

/-- `fetch_new_emails` (src/app.py:249-300): on connect failure return no
messages (ledger untouched); otherwise run the per-id loop. -/
def fetch_new_emails (c : MailboxCycle) (processed : List String) :
    List EmailData × List String :=
  if c.connected then fetch_loop c.account c.fetchMsg c.unseen processed
  else ([], processed)

/-- A sequence of `fetch_new_emails` calls threading `processed_emails`
through, as the monitor loop performs across mailboxes and cycles
(src/app.py:302-310, 372-382). Returns all emitted messages in order and the
final ledger. -/
def run_cycles : List MailboxCycle → List String → List EmailData × List String
  | [], processed => ([], processed)
  | c :: cs, processed =>
    let r1 := fetch_new_emails c processed
    let r2 := run_cycles cs r1.2
    (r1.1 ++ r2.1, r2.2)

/-- Modelled from the spec: "Pure membership set, scoped per mailbox
identifier to avoid cross-mailbox identifier collisions." The same per-id
loop, but the ledger keys are (account, message id) pairs, so that equal ids
on two different mailboxes are tracked independently. Used only to exhibit
how the source's single global set differs from this. -/
def fetch_loop_scoped (account : String) (fetchMsg : String → Option FetchedMsg) :
    List String → List (String × String) → List EmailData × List (String × String)
  | [], processed => ([], processed)
  | i :: rest, processed =>
    if processed.contains (account, i) then
      fetch_loop_scoped account fetchMsg rest processed
    else
      match fetchMsg i with
      | some m =>
        let res := fetch_loop_scoped account fetchMsg rest (processed ++ [(account, i)])
        ({ id := i, sender := m.sender, subject := m.subject
         , body := m.body, date := m.date, account := account } :: res.1, res.2)
      | none => fetch_loop_scoped account fetchMsg rest processed

/-! ## Activity log (`recent_email_activity`, src/app.py:74, 355-367) -/

/-- The `activity` dict built at src/app.py:355-363. -/
structure ActivityRecord where
  sender : String
  subject : String
  classification : String
  status : String
  sentiment : String
  time : String
  account : String
deriving DecidableEq

/-- The log update at src/app.py:365-367: `insert(0, activity)` then truncate
to the first 10 entries when the length exceeds 10. -/
def insert_activity (a : ActivityRecord) (log : List ActivityRecord) : List ActivityRecord :=
  let l := a :: log
  if 10 < l.length then l.take 10 else l

/-- Repeated insertions, as successive processed messages perform them. -/
def insert_all (recs : List ActivityRecord) (log : List ActivityRecord) : List ActivityRecord :=
  recs.foldl (fun acc a => insert_activity a acc) log

/-! ## Concrete sample data used by the witnesses -/

/-- The volunteer scenario draft from the spec's test section. -/
def sampleDraft : DraftInfo :=
  { sender := "fatima.ahmed@gmail.com"
  , subject := "Volunteer Opportunity"
  , original_body := "I am interested in volunteering"
  , generated_response := "Thank you for reaching out!"
  , classification := "volunteer_interest"
  , confidence := 85
  , timestamp := "2026-01-01T00:00:00"
  , account := "info@outreachandtransformlives.org" }

/-- A pending entry with id 1. -/
def sampleEntry : PendingResponse :=
  { id := 1
  , sender := "fatima.ahmed@gmail.com"
  , subject := "Volunteer Opportunity"
  , original_body := "I am interested in volunteering"
  , generated_response := "Thank you for reaching out!"
  , classification := "volunteer_interest"
  , confidence := 85
  , timestamp := "2026-01-01T00:00:00"
  , status := "pending_approval"
  , account := "info@outreachandtransformlives.org" }

/-- A pending entry with id 2. -/
def otherEntry : PendingResponse :=
  { id := 2
  , sender := "amina.hassan@gmail.com"
  , subject := "Program Information"
  , original_body := "Can you tell me about your programs?"
  , generated_response := "Here is some information."
  , classification := "program_inquiry"
  , confidence := 80
  , timestamp := "2026-01-02T00:00:00"
  , status := "pending_approval"
  , account := "info@outreachandtransformlives.org" }

/-- A second, distinct pending entry also carrying id 2, as arises after a
removal followed by an enqueue. -/
def thirdEntry : PendingResponse :=
  { id := 2
  , sender := "grace.w@gmail.com"
  , subject := "General question"
  , original_body := "Hello, a question."
  , generated_response := "Hi Grace, thanks!"
  , classification := "general_support"
  , confidence := 90
  , timestamp := "2026-01-03T00:00:00"
  , status := "pending_approval"
  , account := "info@outreachandtransformlives.org" }

/-- An activity record distinguished by its sender. -/
def mkRec (s : String) : ActivityRecord :=
  { sender := s, subject := "subj", classification := "general_support"
  , status := "human_review_required", sentiment := "neutral"
  , time := "Just now", account := "info@outreachandtransformlives.org" }

/-- A fetch oracle for the first mailbox. -/
def msgOracleA : String → Option FetchedMsg :=
  fun _ => some { sender := "alice@x.com", subject := "Hello A", body := "body A", date := "Mon" }

/-- A fetch oracle for the second mailbox. -/
def msgOracleB : String → Option FetchedMsg :=
  fun _ => some { sender := "bob@y.com", subject := "Hello B", body := "body B", date := "Tue" }

/-! ## Claims about the classification router -/

/-- C4: whenever the sender's domain (the substring after the last `'@'`,
lower-cased) contains a configured VIP domain as a substring, `classify_email`
returns category `vip_contact`, confidence 100, action `human_review_required`
and a reason naming the matched domain — for every subject, body and
classifier, so no external classifier call influences the result. -/
theorem vip_rule_short_circuits (cfg : OTLConfigT)
    (classifier : String → String → String → Except String ClassifierOutput)
    (sender_email subject content : String)
    (hvip : vipMatch cfg sender_email = true) :
    classify_email cfg classifier sender_email subject content =
      { classification := "vip_contact", confidence := 100
      , action := "human_review_required"
      , reason := some ("VIP domain detected: " ++ senderDomain sender_email) } := by
  simp [classify_email, hvip]

/-- C4 witness: the Gates Foundation sender from the source's own VIP test,
with a classifier that would fail if it were ever called. -/
theorem vip_rule_short_circuits_witness :
    classify_email OTL_CONFIG (fun _ _ _ => Except.error "classifier not called")
      "program.officer@gatesfoundation.org" "Grant Opportunity" "any content" =
      { classification := "vip_contact", confidence := 100
      , action := "human_review_required"
      , reason := some ("VIP domain detected: "
          ++ senderDomain "program.officer@gatesfoundation.org") } :=
  vip_rule_short_circuits OTL_CONFIG _ _ _ _ (by decide)

/-- C5: a sender that case-insensitively equals a configured staff account is
classified `staff_communication` with confidence 95 and action
`human_review_required` when its domain matches no VIP domain; and when the
VIP rule also matches, the VIP rule wins because it is evaluated first. -/
theorem staff_rule_after_vip (cfg : OTLConfigT)
    (classifier : String → String → String → Except String ClassifierOutput)
    (sender_email subject content : String)
    (hstaff : staffMatch cfg sender_email = true) :
    (vipMatch cfg sender_email = false →
      classify_email cfg classifier sender_email subject content =
        { classification := "staff_communication", confidence := 95
        , action := "human_review_required"
        , reason := some "Internal staff communication" }) ∧
    (vipMatch cfg sender_email = true →
      classify_email cfg classifier sender_email subject content =
        { classification := "vip_contact", confidence := 100
        , action := "human_review_required"
        , reason := some ("VIP domain detected: " ++ senderDomain sender_email) }) := by
  constructor
  · intro hv
    simp [classify_email, hv, hstaff]
  · intro hv
    simp [classify_email, hv]

/-- C5 witness: a configured staff account (in different case) is classified
as staff, and a sender that is both staff and VIP in an ad-hoc configuration
is classified as VIP. -/
theorem staff_rule_after_vip_witness :
    (classify_email OTL_CONFIG (fun _ _ _ => Except.error "classifier not called")
      "Info@OutreachAndTransformLives.org" "Meeting" "internal note" =
      { classification := "staff_communication", confidence := 95
      , action := "human_review_required"
      , reason := some "Internal staff communication" }) ∧
    (classify_email ⟨["director@seattle.gov"], ["seattle.gov"]⟩
      (fun _ _ _ => Except.error "classifier not called")
      "director@seattle.gov" "Meeting" "note" =
      { classification := "vip_contact", confidence := 100
      , action := "human_review_required"
      , reason := some ("VIP domain detected: " ++ senderDomain "director@seattle.gov") }) :=
  ⟨(staff_rule_after_vip OTL_CONFIG _ _ _ _ (by decide)).1 (by decide),
   (staff_rule_after_vip ⟨["director@seattle.gov"], ["seattle.gov"]⟩ _ _ _ _
      (by decide)).2 (by decide)⟩

/-- C6: on a successful external classification, the action is
`generate_for_approval` exactly when the returned category lies in
{volunteer_interest, program_inquiry, general_support} and the returned
confidence is strictly greater than 70; every other successful case gets
`human_review`. -/
theorem auto_action_iff (cfg : OTLConfigT)
    (classifier : String → String → String → Except String ClassifierOutput)
    (sender_email subject content : String) (r : ClassifierOutput)
    (hv : vipMatch cfg sender_email = false) (hs : staffMatch cfg sender_email = false)
    (hok : classifier sender_email subject (pyTake 500 content) = Except.ok r) :
    ((classify_email cfg classifier sender_email subject content).action
        = "generate_for_approval"
      ↔ (r.classification ∈ auto_respond_categories ∧ 70 < r.confidence)) ∧
    ((classify_email cfg classifier sender_email subject content).action
        = "generate_for_approval" ∨
     (classify_email cfg classifier sender_email subject content).action
        = "human_review") := by
  have key : (classify_email cfg classifier sender_email subject content).action =
      if r.classification ∈ auto_respond_categories ∧ 70 < r.confidence
      then "generate_for_approval" else "human_review" := by
    simp [classify_email, hv, hs, hok]
    split <;> rename_i h <;> simp [h]
  rw [key]
  by_cases h1 : r.classification ∈ auto_respond_categories
  · by_cases h2 : 70 < r.confidence
    · simp [List.contains, h1, h2]
    · simp [List.contains, h1, h2]
  · simp [List.contains, h1]

/-- C6 witness: the volunteer scenario from the spec (`volunteer_interest`,
confidence 85) takes the approval auto-action. -/
theorem auto_action_iff_witness :
    ((classify_email OTL_CONFIG
        (fun _ _ _ => Except.ok ⟨"volunteer_interest", 85, some "positive"⟩)
        "fatima.ahmed@gmail.com" "Volunteer Opportunity"
        "I am interested in volunteering").action = "generate_for_approval"
      ↔ (("volunteer_interest" : String) ∈ auto_respond_categories ∧ 70 < (85 : Int))) ∧
    ((classify_email OTL_CONFIG
        (fun _ _ _ => Except.ok ⟨"volunteer_interest", 85, some "positive"⟩)
        "fatima.ahmed@gmail.com" "Volunteer Opportunity"
        "I am interested in volunteering").action = "generate_for_approval" ∨
     (classify_email OTL_CONFIG
        (fun _ _ _ => Except.ok ⟨"volunteer_interest", 85, some "positive"⟩)
        "fatima.ahmed@gmail.com" "Volunteer Opportunity"
        "I am interested in volunteering").action = "human_review") :=
  auto_action_iff OTL_CONFIG _ _ _ _ ⟨"volunteer_interest", 85, some "positive"⟩
    (by decide) (by decide) rfl

/-- C7: whenever the external classification step fails, `classify_email`
returns category `error`, confidence 0, action `human_review` carrying the
failure detail; being a total function of the classifier's `Except` outcome,
it never propagates the failure to its caller. -/
theorem classifier_failure_contained (cfg : OTLConfigT)
    (classifier : String → String → String → Except String ClassifierOutput)
    (sender_email subject content : String) (e : String)
    (hv : vipMatch cfg sender_email = false) (hs : staffMatch cfg sender_email = false)
    (herr : classifier sender_email subject (pyTake 500 content) = Except.error e) :
    classify_email cfg classifier sender_email subject content =
      { classification := "error", confidence := 0
      , action := "human_review", error := some e } := by
  simp [classify_email, hv, hs, herr]

/-- C7 witness: a transport failure ("API timeout") is downgraded to the
`error`/`human_review` result. -/
theorem classifier_failure_contained_witness :
    classify_email OTL_CONFIG (fun _ _ _ => Except.error "API timeout")
      "someone@example.com" "Hello" "some content" =
      { classification := "error", confidence := 0
      , action := "human_review", error := some "API timeout" } :=
  classifier_failure_contained OTL_CONFIG _ _ _ _ "API timeout"
    (by decide) (by decide) rfl

/-! ## Claims about the approval queue -/

/-- C1: the claim that enqueue identifiers are monotonically increasing and
never reused fails on the code. `enqueue_pending` computes the id as
`len(pending_responses) + 1` (src/app.py:339), so after two enqueues (ids 1
and 2) and a reject of id 2, the next enqueue is assigned id 2 again — a
removed identifier is reassigned to a later draft. This theorem evaluates the
code on exactly that trace. -/
theorem enqueue_reuses_removed_id :
    ((enqueue_pending (enqueue_pending [] sampleDraft)
        { sampleDraft with sender := "second@x.com" }).map PendingResponse.id = [1, 2]) ∧
    ((reject_response (enqueue_pending (enqueue_pending [] sampleDraft)
        { sampleDraft with sender := "second@x.com" }) 2).map PendingResponse.id = [1]) ∧
    ((enqueue_pending (reject_response (enqueue_pending (enqueue_pending [] sampleDraft)
        { sampleDraft with sender := "second@x.com" }) 2)
        { sampleDraft with sender := "third@x.com" }).map PendingResponse.id = [1, 2]) := by
  refine ⟨rfl, rfl, rfl⟩

/-- C3: `approve_response` on an id with no matching entry returns NotFound
with the queue unchanged; on a present entry whose send fails it returns
SendFailed with the queue unchanged (the entry is still there for a later
approve/edit/reject); and the queue is only ever changed by a successful
send. -/
theorem approve_error_paths (configKeys : List String) (sendOk : PendingResponse → Bool)
    (queue : List PendingResponse) (rid : Nat) :
    ((∀ r ∈ queue, r.id ≠ rid) →
      approve_response configKeys sendOk queue rid =
        { outcome := .notFound, queue := queue, sent := none }) ∧
    (∀ pr, queue.find? (fun r => r.id == rid) = some pr →
      pr.account ∈ configKeys → sendOk pr = false →
      approve_response configKeys sendOk queue rid =
        { outcome := .sendFailed, queue := queue, sent := none } ∧
      pr ∈ queue ∧ pr.id = rid) ∧
    ((approve_response configKeys sendOk queue rid).queue ≠ queue →
      (approve_response configKeys sendOk queue rid).outcome = .approvedSent) := by
  refine ⟨?_, ?_, ?_⟩
  · intro h
    have hall : queue.find? (fun r => r.id == rid) = none := by
      rw [List.find?_eq_none]
      intro x hx
      simpa using h x hx
    simp [approve_response, hall]
  · intro pr hfind hcfg hsend
    refine ⟨?_, List.mem_of_find?_eq_some hfind, ?_⟩
    · simp [approve_response, hfind, hcfg, hsend]
    · simpa using List.find?_some hfind
  · intro hne
    cases hf : queue.find? (fun r => r.id == rid) with
    | none => simp [approve_response, hf] at hne
    | some pr =>
      by_cases hc : pr.account ∈ configKeys
      · by_cases hsk : sendOk pr = true
        · simp [approve_response, hf, hc, hsk]
        · simp [approve_response, hf, hc, hsk] at hne
      · simp [approve_response, hf, hc] at hne

/-- C3 witness: a one-entry queue — approving id 2 is NotFound, approving
id 1 under a failing send leaves the entry queued and reports SendFailed. -/
theorem approve_error_paths_witness :
    (approve_response ["info@outreachandtransformlives.org"] (fun _ => true)
        [sampleEntry] 2 =
      { outcome := .notFound, queue := [sampleEntry], sent := none }) ∧
    (approve_response ["info@outreachandtransformlives.org"] (fun _ => false)
        [sampleEntry] 1 =
      { outcome := .sendFailed, queue := [sampleEntry], sent := none } ∧
      sampleEntry ∈ [sampleEntry] ∧ sampleEntry.id = 1) :=
  ⟨(approve_error_paths _ _ _ _).1 (by decide),
   (approve_error_paths _ _ _ _).2.1 sampleEntry rfl (by simp [sampleEntry]) rfl⟩

/-- C9: `edit_response` on an absent id is NotFound with the queue unchanged;
on the (first) entry carrying the id it replaces exactly that entry's
`generated_response`, leaving all its other fields and every other entry of
the queue unchanged. -/
theorem edit_updates_only_text (queue : List PendingResponse) (rid : Nat) (newText : String) :
    ((∀ r ∈ queue, r.id ≠ rid) →
      edit_response queue rid newText = (false, queue)) ∧
    (∀ l1 e l2, queue = l1 ++ e :: l2 → (∀ r ∈ l1, r.id ≠ rid) → e.id = rid →
      edit_response queue rid newText =
        (true, l1 ++ { e with generated_response := newText } :: l2)) := by
  constructor
  · induction queue with
    | nil => intro h; rfl
    | cons r rest ih =>
      intro h
      have hr : (r.id == rid) = false := by
        simpa using h r (by simp)
      have ih' := ih (fun x hx => h x (by simp [hx]))
      simp [edit_response, hr, ih']
  · intro l1 e l2 hq hl1 he
    subst hq
    induction l1 with
    | nil =>
      have hid : (e.id == rid) = true := by simpa using he
      simp [edit_response, hid]
    | cons r rest ih =>
      have hr : (r.id == rid) = false := by
        simpa using hl1 r (by simp)
      have ih' := ih (fun x hx => hl1 x (by simp [hx]))
      simp [edit_response, hr, ih']

/-- C9 witness: editing id 2 in a two-entry queue rewrites only the second
entry's generated text. -/
theorem edit_updates_only_text_witness :
    edit_response [sampleEntry, otherEntry] 2 "revised reply text" =
      (true, [sampleEntry, { otherEntry with generated_response := "revised reply text" }]) :=
  (edit_updates_only_text [sampleEntry, otherEntry] 2 "revised reply text").2
    [sampleEntry] otherEntry [] rfl (by decide) rfl

/-- C10: on a queue holding two entries with the same id (reachable because
the enqueue id is the queue length plus one), a successful approve hands only
the first matching entry to the mailbox send yet filters out every entry with
that id, so the duplicate is discarded unsent; and a single reject likewise
removes all entries sharing the id. -/
theorem approve_with_duplicate_ids (configKeys : List String)
    (sendOk : PendingResponse → Bool) (l1 l2 : List PendingResponse)
    (e1 e2 : PendingResponse) (rid : Nat)
    (hl1 : ∀ x ∈ l1, x.id ≠ rid) (he1 : e1.id = rid)
    (he2 : e2 ∈ l2) (he2id : e2.id = rid)
    (hcfg : e1.account ∈ configKeys) (hsend : sendOk e1 = true) :
    approve_response configKeys sendOk (l1 ++ e1 :: l2) rid =
      { outcome := .approvedSent
      , queue := (l1 ++ e1 :: l2).filter (fun r => !(r.id == rid))
      , sent := some e1 } ∧
    (∀ r ∈ (approve_response configKeys sendOk (l1 ++ e1 :: l2) rid).queue, r.id ≠ rid) ∧
    (e2 ∈ l1 ++ e1 :: l2 ∧
      e2 ∉ (approve_response configKeys sendOk (l1 ++ e1 :: l2) rid).queue) ∧
    reject_response (l1 ++ e1 :: l2) rid =
      (l1 ++ e1 :: l2).filter (fun r => !(r.id == rid)) ∧
    (∀ r ∈ reject_response (l1 ++ e1 :: l2) rid, r.id ≠ rid) := by
  have hfind : (l1 ++ e1 :: l2).find? (fun r => r.id == rid) = some e1 := by
    rw [List.find?_append]
    have h1 : l1.find? (fun r => r.id == rid) = none := by
      rw [List.find?_eq_none]
      intro x hx
      simpa using hl1 x hx
    rw [h1, List.find?_cons_of_pos _ (by simpa using he1)]
    rfl
  have happ : approve_response configKeys sendOk (l1 ++ e1 :: l2) rid =
      { outcome := .approvedSent
      , queue := (l1 ++ e1 :: l2).filter (fun r => !(r.id == rid))
      , sent := some e1 } := by
    simp [approve_response, hfind, hcfg, hsend]
  have hclean : ∀ r ∈ (approve_response configKeys sendOk (l1 ++ e1 :: l2) rid).queue,
      r.id ≠ rid := by
    rw [happ]
    intro r hr
    simp only [List.mem_filter] at hr
    simpa using hr.2
  refine ⟨happ, hclean, ⟨by simp [he2], fun hc => hclean e2 hc he2id⟩, rfl, ?_⟩
  intro r hr
  simp only [reject_response, List.mem_filter] at hr
  simpa using hr.2

/-- C10 witness: `otherEntry` and `thirdEntry` both carry id 2; the approve
sends only `otherEntry` (the first match) and removes both, and the reject
removes both. -/
theorem approve_with_duplicate_ids_witness :
    approve_response ["info@outreachandtransformlives.org"] (fun _ => true)
        [sampleEntry, otherEntry, thirdEntry] 2 =
      { outcome := .approvedSent
      , queue := [sampleEntry]
      , sent := some otherEntry } ∧
    (∀ r ∈ (approve_response ["info@outreachandtransformlives.org"] (fun _ => true)
        [sampleEntry, otherEntry, thirdEntry] 2).queue, r.id ≠ 2) ∧
    (thirdEntry ∈ [sampleEntry, otherEntry, thirdEntry] ∧
      thirdEntry ∉ (approve_response ["info@outreachandtransformlives.org"] (fun _ => true)
        [sampleEntry, otherEntry, thirdEntry] 2).queue) ∧
    reject_response [sampleEntry, otherEntry, thirdEntry] 2 = [sampleEntry] ∧
    (∀ r ∈ reject_response [sampleEntry, otherEntry, thirdEntry] 2, r.id ≠ 2) :=
  approve_with_duplicate_ids ["info@outreachandtransformlives.org"] (fun _ => true)
    [sampleEntry] [thirdEntry] otherEntry thirdEntry 2
    (by decide) rfl (by decide) rfl (by simp [otherEntry]) rfl

/-! ## Claims about the activity log -/

/-- The log update is a take-10 of the head insertion. -/
theorem insert_activity_eq_take (a : ActivityRecord) (log : List ActivityRecord) :
    insert_activity a log = (a :: log).take 10 := by
  simp only [insert_activity]
  split
  · rfl
  · rename_i h
    exact (List.take_of_length_le (by omega)).symm

/-- Truncating the suffix before or after appending makes no difference. -/
theorem take_append_take {α : Type} (xs ys : List α) (n : Nat) :
    (xs ++ ys.take n).take n = (xs ++ ys).take n := by
  rw [List.take_append_eq_append_take, List.take_append_eq_append_take, List.take_take,
    Nat.min_eq_left (Nat.sub_le n xs.length)]

/-- Folding insertions over a short log is a take-10 of the reversed
insertion order. -/
theorem insert_all_eq_take (recs : List ActivityRecord) (log : List ActivityRecord)
    (h : log.length ≤ 10) : insert_all recs log = (recs.reverse ++ log).take 10 := by
  induction recs generalizing log with
  | nil => simp [insert_all, List.take_of_length_le h]
  | cons r rs ih =>
    have step : insert_all (r :: rs) log = insert_all rs (insert_activity r log) := rfl
    have hlen : (insert_activity r log).length ≤ 10 := by
      rw [insert_activity_eq_take, List.length_take]
      exact Nat.min_le_left _ _
    rw [step, ih (insert_activity r log) hlen, insert_activity_eq_take,
      take_append_take, List.reverse_cons, List.append_assoc, List.cons_append,
      List.nil_append]

/-- C8: the activity log never exceeds 10 records, each processed message's
record is inserted at the head, and after ten further insertions the record
inserted first (absent among the later ten) is no longer present. -/
theorem activity_log_bounded (a : ActivityRecord) (log : List ActivityRecord)
    (rest : List ActivityRecord) :
    ((insert_activity a log).length ≤ 10) ∧
    ((insert_activity a log).head? = some a) ∧
    (rest.length = 10 → a ∉ rest → a ∉ insert_all rest (insert_activity a [])) := by
  refine ⟨?_, ?_, ?_⟩
  · rw [insert_activity_eq_take, List.length_take]
    exact Nat.min_le_left _ _
  · rw [insert_activity_eq_take, List.take_succ_cons, List.head?_cons]
  · intro h10 hmem
    have h1 : insert_activity a ([] : List ActivityRecord) = [a] := rfl
    rw [h1, insert_all_eq_take rest [a] (by simp),
      List.take_left' (by simp [h10]), List.mem_reverse]
    exact hmem

/-- C8 witness: eleven concrete insertions starting from the empty log — the
first record is evicted. -/
theorem activity_log_bounded_witness :
    ((insert_activity (mkRec "s0") []).length ≤ 10) ∧
    ((insert_activity (mkRec "s0") []).head? = some (mkRec "s0")) ∧
    (mkRec "s0" ∉ insert_all
      [mkRec "s1", mkRec "s2", mkRec "s3", mkRec "s4", mkRec "s5",
       mkRec "s6", mkRec "s7", mkRec "s8", mkRec "s9", mkRec "s10"]
      (insert_activity (mkRec "s0") [])) :=
  ⟨(activity_log_bounded (mkRec "s0") [] []).1,
   (activity_log_bounded (mkRec "s0") [] []).2.1,
   (activity_log_bounded (mkRec "s0") []
      [mkRec "s1", mkRec "s2", mkRec "s3", mkRec "s4", mkRec "s5",
       mkRec "s6", mkRec "s7", mkRec "s8", mkRec "s9", mkRec "s10"]).2.2
      (by decide) (by decide)⟩

/-! ## Claims about the dedup ledger -/

/-- The per-id fetch loop only grows the ledger, emits no id twice, and emits
exactly ids that were new and are now in the ledger. -/
theorem fetch_loop_ledger (account : String) (fetchMsg : String → Option FetchedMsg) :
    ∀ (ids processed : List String),
      (∀ x ∈ processed, x ∈ (fetch_loop account fetchMsg ids processed).2) ∧
      ((fetch_loop account fetchMsg ids processed).1.map EmailData.id).Nodup ∧
      (∀ e ∈ (fetch_loop account fetchMsg ids processed).1,
        e.id ∉ processed ∧ e.id ∈ (fetch_loop account fetchMsg ids processed).2) := by
  intro ids
  induction ids with
  | nil => intro processed; simp [fetch_loop]
  | cons i rest ih =>
    intro processed
    by_cases hp : processed.contains i = true
    · simpa only [fetch_loop, hp, if_true] using ih processed
    · have hpmem : i ∉ processed := by simpa using hp
      cases hm : fetchMsg i with
      | none =>
        simpa only [fetch_loop, hp, Bool.false_eq_true, if_false, hm] using ih processed
      | some m =>
        have ihp := ih (processed ++ [i])
        refine ⟨?_, ?_, ?_⟩
        · intro x hx
          simp only [fetch_loop, hp, Bool.false_eq_true, if_false, hm]
          exact ihp.1 x (by simp [hx])
        · simp only [fetch_loop, hp, Bool.false_eq_true, if_false, hm, List.map_cons]
          rw [List.nodup_cons]
          refine ⟨?_, ihp.2.1⟩
          intro hcontra
          simp only [List.mem_map] at hcontra
          obtain ⟨e, he, heid⟩ := hcontra
          have := (ihp.2.2 e he).1
          simp [heid] at this
        · intro e he
          simp only [fetch_loop, hp, Bool.false_eq_true, if_false, hm, List.mem_cons] at he
          rcases he with he | he
          · subst he
            refine ⟨hpmem, ?_⟩
            simp only [fetch_loop, hp, Bool.false_eq_true, if_false, hm]
            exact ihp.1 i (by simp)
          · have h3 := ihp.2.2 e he
            refine ⟨fun hc => h3.1 (by simp [hc]), ?_⟩
            simp only [fetch_loop, hp, Bool.false_eq_true, if_false, hm]
            exact h3.2

/-- `fetch_new_emails` inherits the ledger properties of the fetch loop
(connect failure leaves both outputs trivial). -/
theorem fetch_new_emails_ledger (c : MailboxCycle) (processed : List String) :
    (∀ x ∈ processed, x ∈ (fetch_new_emails c processed).2) ∧
    ((fetch_new_emails c processed).1.map EmailData.id).Nodup ∧
    (∀ e ∈ (fetch_new_emails c processed).1,
      e.id ∉ processed ∧ e.id ∈ (fetch_new_emails c processed).2) := by
  by_cases hc : c.connected = true
  · simpa only [fetch_new_emails, hc, if_true] using
      fetch_loop_ledger c.account c.fetchMsg c.unseen processed
  · simp [fetch_new_emails, hc]

/-- Over any sequence of mailbox cycles the ledger only grows, no id is
emitted twice, and every emitted id was new and is afterwards in the
ledger. -/
theorem run_cycles_ledger :
    ∀ (cs : List MailboxCycle) (processed : List String),
      (∀ x ∈ processed, x ∈ (run_cycles cs processed).2) ∧
      ((run_cycles cs processed).1.map EmailData.id).Nodup ∧
      (∀ e ∈ (run_cycles cs processed).1,
        e.id ∉ processed ∧ e.id ∈ (run_cycles cs processed).2) := by
  intro cs
  induction cs with
  | nil => intro processed; simp [run_cycles]
  | cons c rest ih =>
    intro processed
    have h1 := fetch_new_emails_ledger c processed
    have h2 := ih (fetch_new_emails c processed).2
    refine ⟨?_, ?_, ?_⟩
    · intro x hx
      simp only [run_cycles]
      exact h2.1 x (h1.1 x hx)
    · simp only [run_cycles, List.map_append]
      rw [List.nodup_append]
      refine ⟨h1.2.1, h2.2.1, ?_⟩
      intro x hx1 hx2
      simp only [List.mem_map] at hx1 hx2
      obtain ⟨e1, he1, he1id⟩ := hx1
      obtain ⟨e2, he2, he2id⟩ := hx2
      exact (h2.2.2 e2 he2).1 (he2id ▸ he1id ▸ (h1.2.2 e1 he1).2)
    · intro e he
      simp only [run_cycles, List.mem_append] at he
      rcases he with he | he
      · refine ⟨(h1.2.2 e he).1, ?_⟩
        simp only [run_cycles]
        exact h2.1 e.id (h1.2.2 e he).2
      · refine ⟨fun hc => (h2.2.2 e he).1 (h1.1 e.id hc), ?_⟩
        simp only [run_cycles]
        exact (h2.2.2 e he).2

/-- C2 (amended): the dedup ledger is one global membership set shared by all
mailboxes; for any message identifier already marked seen, no later cycle on
any mailbox ever emits it again, no identifier is emitted twice across any
sequence of cycles, and the ledger never shrinks. -/
theorem dedup_ledger_never_reemits (cs : List MailboxCycle) (processed : List String)
    (i : String) (hi : i ∈ processed) :
    (∀ e ∈ (run_cycles cs processed).1, e.id ≠ i) ∧
    ((run_cycles cs processed).1.map EmailData.id).Nodup ∧
    (∀ x ∈ processed, x ∈ (run_cycles cs processed).2) := by
  refine ⟨?_, (run_cycles_ledger cs processed).2.1, (run_cycles_ledger cs processed).1⟩
  intro e he heq
  exact ((run_cycles_ledger cs processed).2.2 e he).1 (heq ▸ hi)

/-- C2 witness: with id "1" already marked seen, a cycle listing ids "1" and
"2" re-emits nothing for "1". -/
theorem dedup_ledger_never_reemits_witness :
    (∀ e ∈ (run_cycles [{ account := "mdigo@emdigo.org", connected := true
                        , unseen := ["1", "2"], fetchMsg := msgOracleB }] ["1"]).1,
      e.id ≠ "1") ∧
    ((run_cycles [{ account := "mdigo@emdigo.org", connected := true
                  , unseen := ["1", "2"], fetchMsg := msgOracleB }] ["1"]).1.map
      EmailData.id).Nodup ∧
    (∀ x ∈ ["1"],
      x ∈ (run_cycles [{ account := "mdigo@emdigo.org", connected := true
                       , unseen := ["1", "2"], fetchMsg := msgOracleB }] ["1"]).2) :=
  dedup_ledger_never_reemits _ _ "1" (by simp)

/-- C2 counterexample: the ledger is not scoped per mailbox. After the first
mailbox fetches message id "1", the second mailbox's own message with the
equal id "1" is silently suppressed, whereas the per-mailbox-scoped ledger the
spec describes (`fetch_loop_scoped`) would emit it. -/
theorem dedup_ledger_not_mailbox_scoped :
    (fetch_new_emails { account := "info@outreachandtransformlives.org", connected := true
                      , unseen := ["1"], fetchMsg := msgOracleA } []).2 = ["1"] ∧
    (fetch_new_emails { account := "mdigo@emdigo.org", connected := true
                      , unseen := ["1"], fetchMsg := msgOracleB } ["1"]).1 = [] ∧
    (fetch_loop_scoped "mdigo@emdigo.org" msgOracleB ["1"]
        [("info@outreachandtransformlives.org", "1")]).1 =
      [{ id := "1", sender := "bob@y.com", subject := "Hello B", body := "body B"
       , date := "Tue", account := "mdigo@emdigo.org" }] := by
  refine ⟨rfl, rfl, rfl⟩

end OTL
